import Mathlib

/-!
Formal model of the lightbox presentation engine
(src/ts/components/lightbox-zoom.ts and src/ts/utils/general.ts).

The TypeScript sources run on a single-threaded cooperative scheduler:
code interleaves only at explicit suspension points (awaits on loads,
timers and render syncs).  We embed

* the cancelable-delay primitive `waitForTimeout` as an explicit state
  machine over the delay handle (general.ts lines 106-133);
* the timeout race `promiseWithTimeout` as a pure function of the wrapped
  operation's settle time and outcome (general.ts lines 143-155);
* one `lightboxPresentImage(r)` call (lightbox-zoom.ts lines 701-782) for
  a fresh reference with no concurrent re-target as a pure function of the
  load's settle time/outcome and the preview's outcome;
* the engine proper (buffers, swap chain, presented image, pending
  continuations) as a small-step machine whose events are exactly the
  suspension-point continuations of the source;
* the scroll-close handler, the zoom/pan controller and the gallery
  link construction as pure functions.

JavaScript values that only matter through truthiness and identity are
modelled by a small `JsVal` type; machine integers of the DOM geometry are
modelled by `ℚ` (the zoom/pan math has no overflow concern) and scroll
offsets by `ℤ`.
-/

namespace LightboxZoom

/-! ### JavaScript values and truthiness -/

/-- A small model of the JavaScript values relevant to the utilities:
`undefined`, `null`, booleans, (integral) numbers and strings.  (Float
`NaN` is not representable; no claim depends on it.) -/
inductive JsVal where
  | undef
  | null
  | boolean (b : Bool)
  | num (n : Int)
  | str (s : String)
  deriving DecidableEq

/-- JavaScript truthiness of a `JsVal` (the `if (reason)` test). -/
def truthy : JsVal → Bool
  | .undef => false
  | .null => false
  | .boolean b => b
  | .num n => !(n == 0)
  | .str s => !(s == "")

/-! ### `waitForTimeout` (general.ts lines 106-133)

The handle's mutable state: the completion promise (pending / resolved /
rejected), whether the natural elapse already cleared `innerResolve` and
`innerReject` (set to `undefined` inside the timer callback), and whether
the `setTimeout` timer is still armed. -/

/-- Settlement state of the completion promise of a delay handle. -/
inductive DelayCompletion where
  | pending
  | resolvedC
  | rejectedC (reason : JsVal)
  deriving DecidableEq

/-- State of one `waitForTimeout` handle. -/
structure TimeoutHandle where
  completion : DelayCompletion
  /-- `innerResolve`/`innerReject` have been set to `undefined`
  (this happens only inside the natural-elapse timer callback). -/
  handlersCleared : Bool
  timerArmed : Bool
  deriving DecidableEq

/-- The handle returned by `waitForTimeout(ms)`: pending completion,
live handlers, armed timer (general.ts lines 111-132). -/
def waitForTimeout : TimeoutHandle :=
  { completion := .pending, handlersCleared := false, timerArmed := true }

/-- The `setTimeout` callback of general.ts lines 114-118: clears both
handlers and resolves the (pending) completion.  A promise settles at most
once, hence the `pending` guard on the completion field. -/
def timerElapse (t : TimeoutHandle) : TimeoutHandle :=
  if t.timerArmed then
    { completion := if t.completion = .pending then .resolvedC else t.completion
      handlersCleared := true
      timerArmed := false }
  else t

/-- Result of one `cancel(reason?)` call: the new handle state and whether
the call itself threw (a `TypeError`, from invoking `innerResolve!`/
`innerReject!` after they were cleared to `undefined`). -/
structure CancelResult where
  handle : TimeoutHandle
  threw : Bool
  deriving DecidableEq

/-- `cancel(reason?)` of general.ts lines 123-131: always clears the
timer; then calls `innerReject(reason)` if `reason` is truthy, else
`innerResolve()`.  After natural elapse both handlers are `undefined`, so
the call throws a `TypeError`; the already-settled completion is
unaffected either way.  Calling with no argument is `reason = undefined`. -/
def cancel (t : TimeoutHandle) (reason : JsVal) : CancelResult :=
  let t1 : TimeoutHandle := { t with timerArmed := false }
  if t.handlersCleared then
    { handle := t1, threw := true }
  else if truthy reason then
    { handle := { t1 with completion := if t1.completion = .pending then .rejectedC reason else t1.completion }
      threw := false }
  else
    { handle := { t1 with completion := if t1.completion = .pending then .resolvedC else t1.completion }
      threw := false }

/-! ### `promiseWithTimeout` (general.ts lines 143-155) -/

/-- An error value observable from the load pipeline: the `TimeoutError`
instance thrown by the race (src/ts/utils/timeout-error.ts), or a genuine
resource failure (a load `error` event / decode rejection, carrying some
payload that is never a `TimeoutError` instance). -/
inductive JsErr where
  | timeoutError
  | other (code : Nat)
  deriving DecidableEq

/-- Outcome of an awaited promise. -/
inductive RaceOutcome where
  | resolved
  | rejected (e : JsErr)
  deriving DecidableEq

/-- `promiseWithTimeout(promise, timeout)` under timed semantics: the
wrapped promise settles at `settleAt` milliseconds with `outcome`
(`none` = resolved, `some c` = rejected with resource error `c`).  If it
settles strictly before `timeout`, the race adopts its outcome and clears
the timer; otherwise the timer rejects the race with a `TimeoutError`
first (a tie is modelled as the timer winning; no claim depends on the
tie).  The race never cancels the wrapped promise. -/
def promiseWithTimeout (settleAt : Nat) (outcome : Option Nat) (timeout : Nat) : RaceOutcome :=
  if settleAt < timeout then
    match outcome with
    | none => .resolved
    | some c => .rejected (.other c)
  else .rejected .timeoutError

/-! ### One `lightboxPresentImage` call (lightbox-zoom.ts lines 701-782)

Model of a single `present(r)` call for a fresh reference `r`
(`swapChain.get(r)` is `undefined`, so the call takes the path of lines
736-741) with no concurrent re-target: `lightbox.presentedImage` stays
`r` and the session does not enter `Closing` throughout the call.  The
call's observable result is whether the timeout branch synthesized a
preview buffer, and the exception (if any) that propagates to the caller.

Parameters: `settleAt`/`loadOutcome` describe the full-load operation
(`bufferLoadImage` plus decode), `timeout` is the configured
`loadTimeoutBeforePreview`, and `previewOutcome` is the outcome of
`bufferLoadPreview` on the synthesized preview buffer (`none` = loaded,
`some c` = load/decode failure `c`; never a `TimeoutError`). -/

/-- Observable result of one `lightboxPresentImage` call. -/
structure PresentOutcome where
  /-- the catch branch of lines 768-779 ran and created a preview buffer -/
  previewCreated : Bool
  /-- the rejection propagating out of `present` to its caller, if any -/
  thrown : Option JsErr
  deriving DecidableEq

/-- The try/catch of lightbox-zoom.ts lines 761-781: await the race; on a
non-`TimeoutError` rejection re-throw (lines 764-766); on `TimeoutError`
create a preview buffer, await its load (whose failure propagates
uncaught), then swap or discard it (`bufferSwap`/`remove` do not throw). -/
def lightboxPresentImageRace (settleAt timeout : Nat)
    (loadOutcome : Option Nat) (previewOutcome : Option Nat) : PresentOutcome :=
  match promiseWithTimeout settleAt loadOutcome timeout with
  | .resolved => { previewCreated := false, thrown := none }
  | .rejected (.other c) => { previewCreated := false, thrown := some (.other c) }
  | .rejected .timeoutError =>
      { previewCreated := true
        thrown := previewOutcome.map JsErr.other }

/-! ### Session phases (lightbox-zoom.ts lines 232-237) -/

/-- The lightbox session phase. -/
inductive LightboxState where
  | Closed
  | Opening
  | Open
  | Closing
  deriving DecidableEq

/-! ### Scroll-close handler (lightbox-zoom.ts lines 955-976)

`lightboxScrollHandler` reads the module-level `anchorScrollPosition` and
the session phase; on a displacement beyond the threshold it clears the
anchor and invokes `lightboxCloseHandler` (whose first synchronous action
sets the session to `Closing`).  Scroll offsets are modelled as `ℤ`
pixels; the handler sees the positions sampled after debouncing. -/

/-- The state the scroll handler reads and writes. -/
structure ScrollState where
  lstate : LightboxState
  anchor : Option (Int × Int)
  /-- `lightboxCloseHandler` was invoked by the scroll handler -/
  closeInvoked : Bool
  deriving DecidableEq

/-- One `lightboxScrollHandler` invocation at scroll position `(x, y)`
with the configured `scrollThreshold`. -/
def lightboxScrollHandler (threshold : Nat) (s : ScrollState) (x y : Int) : ScrollState :=
  if s.lstate ≠ LightboxState.Open then s
  else
    match s.anchor with
    | none => { s with anchor := some (x, y) }
    | some (ax, ay) =>
        let deltaX := (x - ax).natAbs
        let deltaY := (y - ay).natAbs
        if max deltaX deltaY > threshold then
          { lstate := LightboxState.Closing, anchor := none, closeInvoked := true }
        else s

/-! ### Zoom/pan controller (lightbox-zoom.ts lines 479-541)

The pan transform installed by `bufferZoomIn` is a closure over the
wrapper's bounding rect and the translate factor
`(1 - zoomFactor) / zoomFactor`; we model the handler slot as the data it
captures, and the transform arithmetic over `ℚ`. -/

/-- A DOM bounding client rect (the fields the pan handler reads). -/
structure Rect where
  left : ℚ
  top : ℚ
  width : ℚ
  height : ℚ
  deriving DecidableEq

/-- The CSS transform assigned to the buffer's image element. -/
structure PanTransform where
  scale : ℚ
  translateX : ℚ
  translateY : ℚ
  deriving DecidableEq

/-- `(1 - buffer.zoomFactor) / buffer.zoomFactor` (line 497). -/
def zoomPanMulti (zoomFactor : ℚ) : ℚ := (1 - zoomFactor) / zoomFactor

/-- The clamp `Math.max(Math.min(v, 0.5), -0.5)` of lines 510-511. -/
def clampHalf (v : ℚ) : ℚ := max (min v (1 / 2)) (-(1 / 2))

/-- Normalized pointer offset on the x axis (line 508 and 510):
`posX = clientX - rect.left`, then `(posX - width * 0.5) / width`
clamped to `[-0.5, 0.5]`. -/
def normalizedX (rect : Rect) (clientX : ℚ) : ℚ :=
  clampHalf ((clientX - rect.left - rect.width * (1 / 2)) / rect.width)

/-- Normalized pointer offset on the y axis (line 509 and 511). -/
def normalizedY (rect : Rect) (clientY : ℚ) : ℚ :=
  clampHalf ((clientY - rect.top - rect.height * (1 / 2)) / rect.height)

/-- The transform written by the pan handler (lines 513-515):
`scale(z) translate(nX * multi * 100%, nY * multi * 100%)`. -/
def panTransform (rect : Rect) (zoomFactor : ℚ) (clientX clientY : ℚ) : PanTransform :=
  { scale := zoomFactor
    translateX := normalizedX rect clientX * zoomPanMulti zoomFactor * 100
    translateY := normalizedY rect clientY * zoomPanMulti zoomFactor * 100 }

/-- The zoom-relevant state of one buffer: the `isZoomed` and `zoomFactor`
fields, the picture cursor style, the image transform (`none` between
zooms, `scale(z)` right after zoom-in), the `zoom` class on the wrapper,
the registered pan handler (modelled by the closure captures: wrapper rect
and translate factor), and the `sizes` attribute (in `vw`) shared by the
picture's source elements. -/
structure ZoomBuffer where
  isZoomed : Bool
  zoomFactor : ℚ
  cursor : String
  transform : Option PanTransform
  hasZoomClass : Bool
  panHandler : Option (Rect × ℚ)
  sizesVw : ℚ
  deriving DecidableEq

/-- `bufferZoomIn` (lines 479-517).  Guard: no-op unless the session is
`Open` and the buffer is not already zoomed.  Otherwise: widen the source
`sizes` (unless `loadFullResImmediately`), set `isZoomed`, the `zoom-out`
cursor and the `scale` transform, add the zoom class and install the pan
handler capturing the wrapper rect and `(1 - z) / z`. -/
def bufferZoomIn (lstate : LightboxState) (loadFullResImmediately : Bool)
    (wrapperRect : Rect) (b : ZoomBuffer) : ZoomBuffer :=
  if lstate ≠ LightboxState.Open ∨ b.isZoomed then b
  else
    let b1 := if !loadFullResImmediately then { b with sizesVw := b.zoomFactor * 100 } else b
    { b1 with
      isZoomed := true
      cursor := "zoom-out"
      transform := some { scale := b.zoomFactor, translateX := 0, translateY := 0 }
      hasZoomClass := true
      panHandler := some (wrapperRect, zoomPanMulti b.zoomFactor) }

/-- `bufferZoomOut` (lines 524-541).  Guard: no-op unless the buffer is
zoomed — the session phase is not consulted (the close handler calls this
while the session is `Closing`).  Otherwise: clear `isZoomed`, restore the
`zoom-in` cursor, clear transform, class and pan handler, and restore the
source `sizes` (unless `loadFullResImmediately`). -/
def bufferZoomOut (loadFullResImmediately : Bool) (b : ZoomBuffer) : ZoomBuffer :=
  if !b.isZoomed then b
  else
    let b1 := { b with
      isZoomed := false
      cursor := "zoom-in"
      transform := none
      hasZoomClass := false
      panHandler := none }
    if !loadFullResImmediately then { b1 with sizesVw := 100 } else b1

/-! ### Gallery link construction (lightbox-zoom.ts lines 1044-1094)

`init` scans the tagged images in document order; the references of one
gallery tag form a doubly linked list built by appending each new image to
the group's tail, and — when `galleryLoop` is set — closing every
non-singleton group into a ring afterwards.  We index references by scan
position and represent the mutable `next`/`previous` link fields by two
`Option Nat` lists. -/

/-- The two link arrays of the scanned references. -/
structure GalleryLinks where
  nxt : List (Option Nat)
  prv : List (Option Nat)
  deriving DecidableEq

/-- Look up the `[head, tail]` pair of a gallery tag in the setup map. -/
def galleryLookup : List (String × Nat × Nat) → String → Option (Nat × Nat)
  | [], _ => none
  | (t, h, tl) :: rest, tag => if t = tag then some (h, tl) else galleryLookup rest tag

/-- Replace the tail of a gallery tag's entry in the setup map. -/
def gallerySetTail : List (String × Nat × Nat) → String → Nat → List (String × Nat × Nat)
  | [], _, _ => []
  | (t, h, tl) :: rest, tag, newTail =>
      if t = tag then (t, h, newTail) :: rest
      else (t, h, tl) :: gallerySetTail rest tag newTail

/-- The scanning loop body of lines 1047-1084 restricted to the link
bookkeeping: for image `i` with gallery tag `tag`, if the tag already has
a group, link `i.previous` to the current tail, the tail's `next` to `i`,
and make `i` the new tail; otherwise start a new group `[i, i]`. -/
def galleryScanStep (st : List (String × Nat × Nat) × GalleryLinks) (item : Nat × Option String)
    (galleryMode : Bool) : List (String × Nat × Nat) × GalleryLinks :=
  match item.2 with
  | none => st
  | some tag =>
      if galleryMode then
        match galleryLookup st.1 tag with
        | some (_, tl) =>
            ( gallerySetTail st.1 tag item.1
            , { nxt := st.2.nxt.set tl (some item.1)
                prv := st.2.prv.set item.1 (some tl) } )
        | none => ((tag, item.1, item.1) :: st.1, st.2)
      else st

/-- `init`'s gallery construction (lines 1044-1094) over the scan-ordered
list of gallery tags (`none` = the element carries no non-empty tag
value; an empty `data-lightbox` attribute yields no gallery key): scan
phase, then — if `galleryMode` and `galleryLoop` — connect every
non-singleton group's head and tail into a ring. -/
def init (tags : List (Option String)) (galleryMode galleryLoop : Bool) : GalleryLinks :=
  let n := tags.length
  let start : List (String × Nat × Nat) × GalleryLinks :=
    ([], { nxt := List.replicate n none, prv := List.replicate n none })
  let scanned := tags.enum.foldl (fun st item => galleryScanStep st item galleryMode) start
  if galleryMode && galleryLoop then
    scanned.1.foldl
      (fun links g =>
        if g.2.1 ≠ g.2.2 then
          { nxt := links.nxt.set g.2.2 (some g.2.1)
            prv := links.prv.set g.2.1 (some g.2.2) }
        else links)
      scanned.2
  else scanned.2

/-! ### The engine machine

The shared mutable state of the engine (lightbox-zoom.ts lines 220-248):
the session phase, the presented-image reference, the front buffer, the
swap-chain mapping, and the per-buffer state.  Image references and
buffers are identified by `Nat`; the class-name configuration knobs are
modelled by their default strings (the spec notes they are cosmetic).
The engine interleaves only at suspension points; each machine event is
the synchronous code between two suspension points of the source.  Two
suspensions are compressed into their enclosing event because no shared
state is read or written across them by the code in between: the
`waitForNextRepaint` waits (lines 446, 720, 740, 772 — pure render
synchronization), and the await chain inside one `bufferSwap` call up to
the scheduling of the hide timeout (the staged-class phase of lines
443-451 performs the same final class assignment as the immediate path).

The zoom sub-state is modelled separately above (`ZoomBuffer`); no claim
relates it to the swap machinery. -/

/-- Lifecycle state of a buffer (lines 214-218). -/
inductive BufferState where
  | Inactive
  | Active
  | Loading
  deriving DecidableEq

/-- One buffer of the machine: its lifecycle state, the `isPreview` flag,
the wrapper's class list and `hidden` attribute, whether the wrapper is
attached to the lightbox root (`remove()` clears this), and whether a
hide-transition timeout is pending on it. -/
structure BufferM where
  bstate : BufferState
  isPreview : Bool
  classes : List String
  hiddenAttr : Bool
  inDom : Bool
  hideTransition : Bool
  deriving DecidableEq

/-- `createBuffer(state, isPreview)` (lines 282-313): a detached wrapper
whose classes/hidden attribute reflect the initial state. -/
def createBuffer (state : BufferState) (isPreview : Bool) : BufferM :=
  { bstate := state
    isPreview := isPreview
    classes := match state with
      | .Active => ["front", "active"]
      | .Loading => ["load"]
      | .Inactive => []
    hiddenAttr := match state with
      | .Inactive => true
      | _ => false
    inDom := false
    hideTransition := false }

/-- The global engine state (`Lightbox`, lines 239-248, plus the pending
asynchronous continuations that the source leaves suspended).  Pending
lists record, per suspended continuation, the data its closure captured:

* `pendingLoads r bid` — the after-load continuation of lines 750-759
  for reference `r` and its full buffer `bid`;
* `pendingPreviews (r, fullB, prevB, checkLoading)` — a suspended
  `bufferLoadPreview` whose post-load re-validation either re-checks that
  the full buffer is still `Loading` (line 724, `checkLoading = true`) or
  that it is not yet `Active` (line 776, `checkLoading = false`);
* `pendingCleanups` — buffers whose hide-transition timeout of line 455
  has been scheduled and not yet fired or been canceled. -/
structure EngineState where
  lstate : LightboxState
  presented : Option Nat
  frontBuffer : Nat
  swapChain : Nat → Option Nat
  buffers : Nat → BufferM
  pendingLoads : List (Nat × Nat)
  pendingPreviews : List (Nat × Nat × Nat × Bool)
  pendingCleanups : List Nat
  nextId : Nat
  /-- the computed `bufferTransitionDuration` (line 374) -/
  bufDur : Nat

/-- Point update of the buffer store. -/
def updBuf (bs : Nat → BufferM) (i : Nat) (b : BufferM) : Nat → BufferM :=
  fun n => if n = i then b else bs n

/-- The state-dependent cleanup of lines 462-470: if the demoted buffer is
still `Inactive` when its hide transition ends, a disposable preview is
detached entirely, a retained buffer is hidden; a buffer that became
active again in the meantime is left alone. -/
def cleanupBuffer (b : BufferM) : BufferM :=
  if b.bstate = BufferState.Inactive then
    if b.isPreview then { b with inDom := false }
    else { b with hiddenAttr := true }
  else b

/-- `bufferSwap(buffer)` (lines 415-471).  No-op if the buffer is already
`Active`.  Otherwise, in source order: promote it to front and mark the
previous front `Inactive` (lines 426-430, point updates sequenced so that
aliasing behaves as the JavaScript object mutation does); cancel a
pending hide timeout on the promoted buffer (lines 433-436 — the
canceled wait resumes, re-checks the now-`Active` state and skips
cleanup, so the net effect is dropping the scheduled cleanup); remove
the promoted buffer's `hidden` attribute and assign the final classes
(lines 441-451, staged phase compressed); then either run the cleanup
inline (the `immediate` path of line 438 has no suspension at all) or
schedule the demoted buffer's hide timeout for a later `hideTimerFired`
event (lines 454-456). -/
def bufferSwap (s : EngineState) (bid : Nat) : EngineState :=
  if (s.buffers bid).bstate = BufferState.Active then s
  else
    let backId := s.frontBuffer
    let bs1 := updBuf s.buffers bid { s.buffers bid with bstate := BufferState.Active }
    let bs2 := updBuf bs1 backId { bs1 backId with bstate := BufferState.Inactive }
    let cleanups :=
      if (bs2 bid).hideTransition then s.pendingCleanups.erase bid else s.pendingCleanups
    let bs3 := updBuf bs2 bid { bs2 bid with hideTransition := false }
    let immediate := s.bufDur = 0 ∨ (bs3 bid).inDom = false ∨ s.lstate ≠ LightboxState.Open
    let bs4 := updBuf bs3 bid { bs3 bid with hiddenAttr := false }
    let bs5 := updBuf bs4 bid { bs4 bid with classes := ["front", "active"] }
    let bs6 := updBuf bs5 backId { bs5 backId with classes := [] }
    if immediate then
      { s with
        frontBuffer := bid
        buffers := updBuf bs6 backId (cleanupBuffer (bs6 backId))
        pendingCleanups := cleanups }
    else
      { s with
        frontBuffer := bid
        buffers := updBuf bs6 backId { bs6 backId with hideTransition := true }
        pendingCleanups := backId :: cleanups }

/-- The hide-transition timeout of one demoted buffer fires
(resumption of line 456): clear the handle and run the cleanup of lines
459-470.  A timeout that was canceled (erased from `pendingCleanups` by a
re-promotion) resumes through the cancel itself and finds the buffer
`Active`, which `cleanupBuffer` leaves alone — already accounted for in
`bufferSwap`, so a fired event not in `pendingCleanups` is a no-op. -/
def hideTimerFired (s : EngineState) (b : Nat) : EngineState :=
  if s.pendingCleanups.contains b then
    { s with
      buffers := updBuf s.buffers b (cleanupBuffer { s.buffers b with hideTransition := false })
      pendingCleanups := s.pendingCleanups.erase b }
  else s

/-- A freshly created, attached `Loading` buffer
(`createBuffer(BufferState.Loading)` then `insertBefore`, lines 716-717
and 737-738). -/
def newLoadingBuffer : BufferM := { createBuffer BufferState.Loading false with inDom := true }

/-- The synchronous prefix of `lightboxPresentImage(r)` (lines 701-750):
record `r` as the presented image, then branch on the swap chain.

* Existing buffer still `Loading` (lines 715-731): create and attach a
  disposable preview buffer and suspend in `bufferLoadPreview` (whose
  synchronous prefix already sets `isPreview`, line 581); the post-load
  re-validation of line 724 is the pending preview's `checkLoading`
  continuation.
* No buffer yet (lines 736-741): create and attach a `Loading` buffer,
  register it in the swap chain, start `bufferLoadImage` and chain the
  after-load continuation of lines 750-759 (the pending load).
* Buffer exists and is not `Loading` (lines 742-745): the load degenerates
  to a re-decode; the same after-load continuation is chained. -/
def lightboxPresentImageStart (s : EngineState) (r : Nat) : EngineState :=
  match s.swapChain r with
  | some bid =>
      if (s.buffers bid).bstate = BufferState.Loading then
        let pid := s.nextId
        { s with
          presented := some r
          buffers := updBuf s.buffers pid { newLoadingBuffer with isPreview := true }
          pendingPreviews := (r, bid, pid, true) :: s.pendingPreviews
          nextId := pid + 1 }
      else
        { s with presented := some r, pendingLoads := (r, bid) :: s.pendingLoads }
  | none =>
      let bid := s.nextId
      { s with
        presented := some r
        buffers := updBuf s.buffers bid newLoadingBuffer
        swapChain := fun r2 => if r2 = r then some bid else s.swapChain r2
        pendingLoads := (r, bid) :: s.pendingLoads
        nextId := bid + 1 }

/-- First pending load continuation for reference `r`. -/
def findLoad : List (Nat × Nat) → Nat → Option Nat
  | [], _ => none
  | (r2, b) :: rest, r => if r2 = r then some b else findLoad rest r

/-- Drop the first pending load continuation for reference `r`. -/
def removeLoad : List (Nat × Nat) → Nat → List (Nat × Nat)
  | [], _ => []
  | (r2, b) :: rest, r => if r2 = r then rest else (r2, b) :: removeLoad rest r

/-- The full-load operation for `r` settles successfully and its chained
continuation (lines 750-759) runs: if `r` is still the presented image
and the session is not `Closing`, exchange the buffer to front; otherwise
mark it `Inactive`, clear its classes and set the `hidden` attribute —
the swap chain keeps its entry and the wrapper stays attached. -/
def lightboxPresentImageLoadCont (s : EngineState) (r : Nat) : EngineState :=
  match findLoad s.pendingLoads r with
  | none => s
  | some bid =>
      let s1 := { s with pendingLoads := removeLoad s.pendingLoads r }
      if s1.presented = some r ∧ s1.lstate ≠ LightboxState.Closing then
        bufferSwap s1 bid
      else
        { s1 with
          buffers := updBuf s1.buffers bid
            { s1.buffers bid with
              bstate := BufferState.Inactive
              classes := []
              hiddenAttr := true } }

/-- First pending preview continuation for reference `r`. -/
def findPreview : List (Nat × Nat × Nat × Bool) → Nat → Option (Nat × Nat × Bool)
  | [], _ => none
  | (r2, fb, pb, chk) :: rest, r => if r2 = r then some (fb, pb, chk) else findPreview rest r

/-- Drop the first pending preview continuation for reference `r`. -/
def removePreview : List (Nat × Nat × Nat × Bool) → Nat → List (Nat × Nat × Nat × Bool)
  | [], _ => []
  | (r2, fb, pb, chk) :: rest, r =>
      if r2 = r then rest else (r2, fb, pb, chk) :: removePreview rest r

/-- A suspended `bufferLoadPreview` for reference `r` settles and its
re-validation runs: the step-2 preview (lines 724-729) swaps the preview
to front when `r` is still presented and the full buffer is still
`Loading`; the timeout preview (lines 776-780) swaps when `r` is still
presented and the full buffer did not become `Active`; otherwise the
preview wrapper is detached. -/
def lightboxPresentImagePreviewCont (s : EngineState) (r : Nat) : EngineState :=
  match findPreview s.pendingPreviews r with
  | none => s
  | some (fullB, prevB, checkLoading) =>
      let s1 := { s with pendingPreviews := removePreview s.pendingPreviews r }
      let discard : EngineState :=
        { s1 with buffers := updBuf s1.buffers prevB { s1.buffers prevB with inDom := false } }
      if checkLoading then
        if s1.presented = some r ∧ (s1.buffers fullB).bstate = BufferState.Loading then
          bufferSwap s1 prevB
        else discard
      else
        if s1.presented = some r ∧ (s1.buffers fullB).bstate ≠ BufferState.Active then
          bufferSwap s1 prevB
        else discard

/-- The preview-delay race of a running `lightboxPresentImage(r)` call
times out (catch branch, lines 768-772): create and attach a disposable
preview buffer and suspend in `bufferLoadPreview`; the re-validation of
line 776 becomes a pending preview with `checkLoading = false`.  The race
can only time out while the full load is still pending, i.e. while the
after-load continuation is still suspended. -/
def lightboxPresentImageTimeout (s : EngineState) (r : Nat) : EngineState :=
  match findLoad s.pendingLoads r with
  | none => s
  | some bid =>
      let pid := s.nextId
      { s with
        buffers := updBuf s.buffers pid { newLoadingBuffer with isPreview := true }
        pendingPreviews := (r, bid, pid, false) :: s.pendingPreviews
        nextId := pid + 1 }

/-- The events of the machine: the externally triggered synchronous code
blocks and the resumptions of suspended continuations. -/
inductive Ev where
  /-- a next/previous handler reaches `lightboxPresentImage(r)` -/
  | presentStart (r : Nat)
  /-- the full-load promise for `r` resolves; lines 750-759 run -/
  | loadSettled (r : Nat)
  /-- a suspended `bufferLoadPreview` for `r` resolves -/
  | previewSettled (r : Nat)
  /-- the preview-delay race for `r` rejects with the `TimeoutError` -/
  | timeoutFired (r : Nat)
  /-- a demoted buffer's hide-transition timeout elapses -/
  | hideTimer (b : Nat)
  /-- a document click on image `r`: the listener of lines 1080-1083 sets
  the presented image, the open handler sets `Opening` (line 837) and
  calls `lightboxPresentImage` (line 844) -/
  | openStart (r : Nat)
  /-- the open handler resumes past its transition wait: `Open` (line 883) -/
  | openFinish
  /-- the close handler starts: `Closing` (line 898) -/
  | closeStart
  /-- the close handler resumes past its transition wait: `Closed` (line 943) -/
  | closeFinish

/-- One machine step. -/
def step (s : EngineState) (e : Ev) : EngineState :=
  match e with
  | .presentStart r => lightboxPresentImageStart s r
  | .loadSettled r => lightboxPresentImageLoadCont s r
  | .previewSettled r => lightboxPresentImagePreviewCont s r
  | .timeoutFired r => lightboxPresentImageTimeout s r
  | .hideTimer b => hideTimerFired s b
  | .openStart r =>
      lightboxPresentImageStart { s with lstate := LightboxState.Opening, presented := some r } r
  | .openFinish => { s with lstate := LightboxState.Open }
  | .closeStart => { s with lstate := LightboxState.Closing }
  | .closeFinish => { s with lstate := LightboxState.Closed }

/-- Run a list of events. -/
def run (s : EngineState) (evs : List Ev) : EngineState := evs.foldl step s

/-- `createLightbox` (lines 318-387): the lightbox starts `Closed` with no
presented image, an empty swap chain, and — as its initial front buffer —
a buffer created by `createBuffer(BufferState.Active, true)` (line 323),
i.e. an `Active` disposable preview, attached to the root. -/
def createLightbox (bufDur : Nat) : EngineState :=
  { lstate := LightboxState.Closed
    presented := none
    frontBuffer := 0
    swapChain := fun _ => none
    buffers := fun n =>
      if n = 0 then { createBuffer BufferState.Active true with inDom := true }
      else createBuffer BufferState.Inactive false
    pendingLoads := []
    pendingPreviews := []
    pendingCleanups := []
    nextId := 1
    bufDur := bufDur }

/-- The front buffer's lifecycle state is `Active`. -/
def frontBufferActive (s : EngineState) : Prop :=
  (s.buffers s.frontBuffer).bstate = BufferState.Active

instance (s : EngineState) : Decidable (frontBufferActive s) := by
  unfold frontBufferActive; infer_instance

/-! ## Claims about the timing primitives -/

/-- C4 (counterexample): the claim states that calling `cancel(reason)`
with a reason rejects the completion with that reason.  The source tests
`if (reason)` — JavaScript truthiness — so the falsy reason `false`
(a provided argument) resolves the pending completion instead of
rejecting it. -/
theorem c4_cancel_falsy_reason_counterexample :
    ¬ (∀ r : JsVal, r ≠ JsVal.undef →
        (cancel waitForTimeout r).handle.completion = DelayCompletion.rejectedC r) := by
  intro h
  exact absurd (h (JsVal.boolean false) (by decide)) (by decide)

/-- C4 (amended): for the handle returned by `waitForTimeout`, calling
`cancel` on a pending delay with a falsy reason (in particular with no
reason, i.e. `undefined`) resolves the completion immediately and does
not throw; calling it with a truthy reason rejects the completion with
that reason and does not throw; calling `cancel` after the handlers were
cleared (which is what the natural elapse does, also resolving the
completion) leaves the already-settled completion unchanged. -/
theorem c4_cancelable_delay :
    (∀ (t : TimeoutHandle) (r : JsVal), t.handlersCleared = false →
        t.completion = DelayCompletion.pending → truthy r = false →
        (cancel t r).handle.completion = DelayCompletion.resolvedC ∧ (cancel t r).threw = false) ∧
    (∀ (t : TimeoutHandle) (r : JsVal), t.handlersCleared = false →
        t.completion = DelayCompletion.pending → truthy r = true →
        (cancel t r).handle.completion = DelayCompletion.rejectedC r ∧ (cancel t r).threw = false) ∧
    (∀ (t : TimeoutHandle) (r : JsVal), t.handlersCleared = true →
        (cancel t r).handle.completion = t.completion) ∧
    ((timerElapse waitForTimeout).handlersCleared = true ∧
      (timerElapse waitForTimeout).completion = DelayCompletion.resolvedC) := by
  refine ⟨?_, ?_, ?_, by decide, by decide⟩
  · intro t r hc hp hf
    simp [cancel, hc, hf, hp]
  · intro t r hc hp ht
    simp [cancel, hc, ht, hp]
  · intro t r hc
    simp [cancel, hc]

/-- C4 (witness): the amended properties evaluated on concrete handles:
cancel with no reason on a fresh handle, cancel with a truthy string
reason on a fresh handle, and cancel after natural elapse. -/
theorem c4_cancelable_delay_witness :
    ((waitForTimeout.handlersCleared = false ∧
        waitForTimeout.completion = DelayCompletion.pending ∧
        truthy JsVal.undef = false) ∧
      (cancel waitForTimeout JsVal.undef).handle.completion = DelayCompletion.resolvedC) ∧
    ((truthy (JsVal.str "boom") = true) ∧
      (cancel waitForTimeout (JsVal.str "boom")).handle.completion
        = DelayCompletion.rejectedC (JsVal.str "boom")) ∧
    ((timerElapse waitForTimeout).handlersCleared = true ∧
      (cancel (timerElapse waitForTimeout) JsVal.undef).handle.completion
        = (timerElapse waitForTimeout).completion) :=
  ⟨⟨⟨rfl, rfl, rfl⟩, (c4_cancelable_delay.1 waitForTimeout JsVal.undef rfl rfl rfl).1⟩,
    ⟨rfl, (c4_cancelable_delay.2.1 waitForTimeout (JsVal.str "boom") rfl rfl rfl).1⟩,
    ⟨rfl, c4_cancelable_delay.2.2.1 (timerElapse waitForTimeout) JsVal.undef rfl⟩⟩

/-- C2: during a single `present(r)` call for a fresh reference with no
concurrent re-target, if the full-load operation settles strictly before
`loadTimeoutBeforePreview` elapses, the race adopts the load's outcome,
the `TimeoutError` branch is never entered, and no preview buffer is
created — for every load outcome and every preview behaviour. -/
theorem c2_full_load_wins (settleAt timeout : Nat) (loadOutcome previewOutcome : Option Nat)
    (h : settleAt < timeout) :
    (lightboxPresentImageRace settleAt timeout loadOutcome previewOutcome).previewCreated
      = false := by
  unfold lightboxPresentImageRace promiseWithTimeout
  rw [if_pos h]
  cases loadOutcome <;> rfl

/-- C2 (witness): a load settling at 10 ms against the default 50 ms
timeout creates no preview. -/
theorem c2_full_load_wins_witness :
    10 < 50 ∧
      (lightboxPresentImageRace 10 50 none none).previewCreated = false :=
  ⟨by decide, c2_full_load_wins 10 50 none none (by decide)⟩

/-- C5 (counterexample): the claim states that any non-`TimeoutError`
rejection of the load operation propagates out of `present`.  If the load
fails only after the preview timeout has elapsed (settle 100 ms, timeout
50 ms), the race has already rejected with the contained `TimeoutError`,
the failure lands in the detached continuation chain, and `present`
returns normally (once the synthesized preview loads). -/
theorem c5_late_failure_counterexample :
    ¬ (∀ (settleAt timeout c : Nat) (previewOutcome : Option Nat),
        (lightboxPresentImageRace settleAt timeout (some c) previewOutcome).thrown
          = some (JsErr.other c)) := by
  intro h
  exact absurd (h 100 50 7 none) (by decide)

/-- C5 (amended): a `TimeoutError` produced by the preview-delay race is
caught inside `present` and never propagates to its caller; a genuine
resource failure propagates out of `present` exactly when the load
settles strictly before `loadTimeoutBeforePreview`; when the timeout wins
the race, what escapes `present` is the preview load's outcome — so a
full-load failure after the timeout is not re-thrown. -/
theorem c5_timeout_containment :
    (∀ (settleAt timeout : Nat) (loadOutcome previewOutcome : Option Nat),
        (lightboxPresentImageRace settleAt timeout loadOutcome previewOutcome).thrown
          ≠ some JsErr.timeoutError) ∧
    (∀ (settleAt timeout c : Nat) (previewOutcome : Option Nat), settleAt < timeout →
        (lightboxPresentImageRace settleAt timeout (some c) previewOutcome).thrown
          = some (JsErr.other c)) ∧
    (∀ (settleAt timeout : Nat) (loadOutcome previewOutcome : Option Nat),
        timeout ≤ settleAt →
        (lightboxPresentImageRace settleAt timeout loadOutcome previewOutcome).thrown
          = Option.map JsErr.other previewOutcome) := by
  refine ⟨?_, ?_, ?_⟩
  · intro sA t lo po
    unfold lightboxPresentImageRace
    split
    · simp
    · simp
    · cases po <;> simp
  · intro sA t c po h
    unfold lightboxPresentImageRace promiseWithTimeout
    rw [if_pos h]
  · intro sA t lo po h
    unfold lightboxPresentImageRace promiseWithTimeout
    rw [if_neg (not_lt.mpr h)]

/-- C5 (witness): concrete instances of the three amended branches — no
`TimeoutError` ever escapes, an early failure (10 < 50) is re-thrown, and
after a timeout (50 ≤ 100) the preview's failure is what escapes. -/
theorem c5_timeout_containment_witness :
    (lightboxPresentImageRace 10 50 (some 3) none).thrown ≠ some JsErr.timeoutError ∧
    (10 < 50 ∧
      (lightboxPresentImageRace 10 50 (some 3) none).thrown = some (JsErr.other 3)) ∧
    (50 ≤ 100 ∧
      (lightboxPresentImageRace 100 50 none (some 4)).thrown
        = Option.map JsErr.other (some 4)) :=
  ⟨c5_timeout_containment.1 10 50 (some 3) none,
    ⟨by decide, c5_timeout_containment.2.1 10 50 3 none (by decide)⟩,
    ⟨by decide, c5_timeout_containment.2.2 100 50 none (some 4) (by decide)⟩⟩

/-! ## Claims about the scroll handler, zoom controller and gallery -/

/-- C6: with the session `Open` and scroll threshold 20, the first scroll
event records the anchor; any sequence of subsequent positions whose
displacement from the anchor is at most 20 on both axes leaves the state
untouched (in particular never triggers close); a single position
displaced by 21 on either axis clears the anchor and invokes the close
trigger (which sets the session to `Closing`). -/
theorem c6_scroll_close :
    (∀ x y : Int,
        lightboxScrollHandler 20 ⟨LightboxState.Open, none, false⟩ x y
          = ⟨LightboxState.Open, some (x, y), false⟩) ∧
    (∀ (ax ay : Int) (ps : List (Int × Int)),
        (∀ p ∈ ps, (p.1 - ax).natAbs ≤ 20 ∧ (p.2 - ay).natAbs ≤ 20) →
        ps.foldl (fun st p => lightboxScrollHandler 20 st p.1 p.2)
            ⟨LightboxState.Open, some (ax, ay), false⟩
          = ⟨LightboxState.Open, some (ax, ay), false⟩) ∧
    (∀ ax ay x y : Int, (x - ax).natAbs = 21 ∨ (y - ay).natAbs = 21 →
        lightboxScrollHandler 20 ⟨LightboxState.Open, some (ax, ay), false⟩ x y
          = ⟨LightboxState.Closing, none, true⟩) := by
  refine ⟨?_, ?_, ?_⟩
  · intro x y
    simp [lightboxScrollHandler]
  · intro ax ay ps h
    induction ps with
    | nil => rfl
    | cons p rest ih =>
        have hp := h p (List.mem_cons_self p rest)
        have hmax : max (p.1 - ax).natAbs (p.2 - ay).natAbs ≤ 20 :=
          max_le hp.1 hp.2
        have hstep :
            lightboxScrollHandler 20 ⟨LightboxState.Open, some (ax, ay), false⟩ p.1 p.2
              = ⟨LightboxState.Open, some (ax, ay), false⟩ := by
          simp [lightboxScrollHandler, not_lt.mpr hmax]
        simpa [List.foldl_cons, hstep] using
          ih (fun q hq => h q (List.mem_cons_of_mem p hq))
  · intro ax ay x y h
    have hmax : 20 < max (x - ax).natAbs (y - ay).natAbs := by
      rcases h with h | h
      · calc 20 < 21 := by norm_num
          _ = (x - ax).natAbs := h.symm
          _ ≤ _ := le_max_left _ _
      · calc 20 < 21 := by norm_num
          _ = (y - ay).natAbs := h.symm
          _ ≤ _ := le_max_right _ _
    simp [lightboxScrollHandler, hmax]

/-- C6 (witness): concrete runs at threshold 20 — first event anchors at
(3, 4); the in-threshold sequence [(5, 5), (20, −20), (0, 0)] from anchor
(0, 0) changes nothing; the jump to (21, 0) closes. -/
theorem c6_scroll_close_witness :
    (lightboxScrollHandler 20 ⟨LightboxState.Open, none, false⟩ 3 4
        = ⟨LightboxState.Open, some (3, 4), false⟩) ∧
    ((∀ p ∈ [((5 : Int), (5 : Int)), (20, -20), (0, 0)],
        (p.1 - 0).natAbs ≤ 20 ∧ (p.2 - 0).natAbs ≤ 20) ∧
      ([((5 : Int), (5 : Int)), (20, -20), (0, 0)].foldl
          (fun st p => lightboxScrollHandler 20 st p.1 p.2)
          ⟨LightboxState.Open, some (0, 0), false⟩
        = ⟨LightboxState.Open, some (0, 0), false⟩)) ∧
    ((((21 : Int) - 0).natAbs = 21 ∨ ((0 : Int) - 0).natAbs = 21) ∧
      lightboxScrollHandler 20 ⟨LightboxState.Open, some (0, 0), false⟩ 21 0
        = ⟨LightboxState.Closing, none, true⟩) :=
  ⟨c6_scroll_close.1 3 4,
    ⟨by decide, c6_scroll_close.2.1 0 0 _ (by decide)⟩,
    ⟨Or.inl (by decide), c6_scroll_close.2.2 0 0 21 0 (Or.inl (by decide))⟩⟩

/-- C7 (counterexample): the claim states that `bufferZoomOut` changes
nothing when the session is not `Open` or the buffer is not zoomed.
`bufferZoomOut` never consults the session phase: on a zoomed buffer with
the session `Closing` it performs the full zoom-out (the close handler
depends on exactly this, lightbox-zoom.ts lines 901-904). -/
theorem c7_zoomout_session_counterexample :
    ¬ (∀ (lst : LightboxState) (cfg : Bool) (b : ZoomBuffer),
        (lst ≠ LightboxState.Open ∨ b.isZoomed = false) → bufferZoomOut cfg b = b) := by
  intro h
  have hb := h LightboxState.Closing false
    { isZoomed := true, zoomFactor := 2, cursor := "zoom-out",
      transform := some { scale := 2, translateX := 0, translateY := 0 },
      hasZoomClass := true, panHandler := none, sizesVw := 200 }
    (Or.inl (by decide))
  exact absurd hb (by decide)

/-- C7 (amended): `bufferZoomIn` changes nothing (all buffer fields,
classes, cursor, transform and the registered pan handler) when the
session is not `Open` or the buffer is already zoomed; `bufferZoomOut`
changes nothing when the buffer is not zoomed — its only guard — and in
particular runs regardless of the session phase. -/
theorem c7_zoom_noop_guards :
    (∀ (lst : LightboxState) (cfg : Bool) (rect : Rect) (b : ZoomBuffer),
        (lst ≠ LightboxState.Open ∨ b.isZoomed = true) →
        bufferZoomIn lst cfg rect b = b) ∧
    (∀ (cfg : Bool) (b : ZoomBuffer), b.isZoomed = false → bufferZoomOut cfg b = b) := by
  constructor
  · intro lst cfg rect b h
    unfold bufferZoomIn
    rw [if_pos]
    rcases h with h | h
    · exact Or.inl h
    · exact Or.inr (by simp [h])
  · intro cfg b h
    unfold bufferZoomOut
    rw [if_pos (by simp [h])]

/-- C7 (witness): concrete instances — zoom-in on an already-zoomed
buffer while `Open` is a no-op, and zoom-out on an unzoomed buffer is a
no-op. -/
theorem c7_zoom_noop_guards_witness :
    ((LightboxState.Open ≠ LightboxState.Open ∨
        ({ isZoomed := true, zoomFactor := 2, cursor := "zoom-out",
           transform := none, hasZoomClass := true, panHandler := none,
           sizesVw := 200 } : ZoomBuffer).isZoomed = true) ∧
      bufferZoomIn LightboxState.Open false ⟨0, 0, 100, 80⟩
          { isZoomed := true, zoomFactor := 2, cursor := "zoom-out",
            transform := none, hasZoomClass := true, panHandler := none, sizesVw := 200 }
        = { isZoomed := true, zoomFactor := 2, cursor := "zoom-out",
            transform := none, hasZoomClass := true, panHandler := none, sizesVw := 200 }) ∧
    ((({ isZoomed := false, zoomFactor := 2, cursor := "zoom-in",
         transform := none, hasZoomClass := false, panHandler := none,
         sizesVw := 100 } : ZoomBuffer).isZoomed = false) ∧
      bufferZoomOut false
          { isZoomed := false, zoomFactor := 2, cursor := "zoom-in",
            transform := none, hasZoomClass := false, panHandler := none, sizesVw := 100 }
        = { isZoomed := false, zoomFactor := 2, cursor := "zoom-in",
            transform := none, hasZoomClass := false, panHandler := none, sizesVw := 100 }) :=
  ⟨⟨Or.inr rfl,
      c7_zoom_noop_guards.1 LightboxState.Open false ⟨0, 0, 100, 80⟩ _ (Or.inr rfl)⟩,
    ⟨rfl, c7_zoom_noop_guards.2 false _ rfl⟩⟩

/-- C8: for zoom factor 2 and any container rect with positive extent,
the pan translate at the exact container center is (0 %, 0 %); at the
container's top-left corner both normalized offsets clamp to −0.5 and the
translate reaches 25 % on both axes, which is the magnitude of the
maximum clamp ±50 % · (1 − z)/z; for every pointer position the
normalized offsets stay within [−0.5, 0.5]; and the translate is always
the normalized offset times (1 − z)/z times 100 %. -/
theorem c8_zoom_pan_transform (rect : Rect) (hw : 0 < rect.width) (hh : 0 < rect.height) :
    ((panTransform rect 2 (rect.left + rect.width / 2)
        (rect.top + rect.height / 2)).translateX = 0 ∧
      (panTransform rect 2 (rect.left + rect.width / 2)
        (rect.top + rect.height / 2)).translateY = 0) ∧
    (normalizedX rect rect.left = -(1 / 2) ∧
      normalizedY rect rect.top = -(1 / 2) ∧
      (panTransform rect 2 rect.left rect.top).translateX = 25 ∧
      (panTransform rect 2 rect.left rect.top).translateY = 25 ∧
      (25 : ℚ) = |(50 : ℚ) * zoomPanMulti 2|) ∧
    (∀ cx : ℚ, -(1 / 2) ≤ normalizedX rect cx ∧ normalizedX rect cx ≤ 1 / 2) ∧
    (∀ cy : ℚ, -(1 / 2) ≤ normalizedY rect cy ∧ normalizedY rect cy ≤ 1 / 2) ∧
    (∀ z cx cy : ℚ,
        (panTransform rect z cx cy).translateX
            = normalizedX rect cx * ((1 - z) / z) * 100 ∧
        (panTransform rect z cx cy).translateY
            = normalizedY rect cy * ((1 - z) / z) * 100) := by
  have hw' : rect.width ≠ 0 := ne_of_gt hw
  have hh' : rect.height ≠ 0 := ne_of_gt hh
  have hclamp0 : clampHalf 0 = 0 := by
    unfold clampHalf
    rw [min_eq_left (by norm_num), max_eq_left (by norm_num)]
  have hclampHalf : clampHalf (-(1 / 2)) = -(1 / 2) := by
    unfold clampHalf
    rw [min_eq_left (by norm_num), max_self]
  have hx0 : normalizedX rect (rect.left + rect.width / 2) = 0 := by
    unfold normalizedX
    rw [show rect.left + rect.width / 2 - rect.left - rect.width * (1 / 2) = 0 by ring,
      zero_div]
    exact hclamp0
  have hy0 : normalizedY rect (rect.top + rect.height / 2) = 0 := by
    unfold normalizedY
    rw [show rect.top + rect.height / 2 - rect.top - rect.height * (1 / 2) = 0 by ring,
      zero_div]
    exact hclamp0
  have hxl : normalizedX rect rect.left = -(1 / 2) := by
    unfold normalizedX
    rw [show (rect.left - rect.left - rect.width * (1 / 2)) / rect.width = -(1 / 2) by
      rw [div_eq_iff hw']
      ring]
    exact hclampHalf
  have hyl : normalizedY rect rect.top = -(1 / 2) := by
    unfold normalizedY
    rw [show (rect.top - rect.top - rect.height * (1 / 2)) / rect.height = -(1 / 2) by
      rw [div_eq_iff hh']
      ring]
    exact hclampHalf
  refine ⟨⟨?_, ?_⟩, ⟨hxl, hyl, ?_, ?_, ?_⟩, ?_, ?_, ?_⟩
  · show normalizedX rect _ * zoomPanMulti 2 * 100 = 0
    rw [hx0]
    ring
  · show normalizedY rect _ * zoomPanMulti 2 * 100 = 0
    rw [hy0]
    ring
  · show normalizedX rect rect.left * zoomPanMulti 2 * 100 = 25
    rw [hxl, zoomPanMulti]
    norm_num
  · show normalizedY rect rect.top * zoomPanMulti 2 * 100 = 25
    rw [hyl, zoomPanMulti]
    norm_num
  · rw [show (50 : ℚ) * zoomPanMulti 2 = -25 by rw [zoomPanMulti]; norm_num, abs_neg,
      abs_of_nonneg (by norm_num : (0 : ℚ) ≤ 25)]
  · intro cx
    exact ⟨le_max_right _ _, max_le (min_le_right _ _) (by norm_num)⟩
  · intro cy
    exact ⟨le_max_right _ _, max_le (min_le_right _ _) (by norm_num)⟩
  · intro z cx cy
    exact ⟨rfl, rfl⟩

/-- C8 (witness): the transform evaluated on the concrete 100 × 80 rect
at the origin. -/
theorem c8_zoom_pan_transform_witness :
    ((0 : ℚ) < (100 : ℚ) ∧ (0 : ℚ) < (80 : ℚ)) ∧
      (panTransform ⟨0, 0, 100, 80⟩ 2 ((0 : ℚ) + 100 / 2) ((0 : ℚ) + 80 / 2)).translateX
        = 0 ∧
      normalizedX ⟨0, 0, 100, 80⟩ 0 = -(1 / 2) ∧
      (panTransform ⟨0, 0, 100, 80⟩ 2 0 0).translateX = 25 := by
  have h := c8_zoom_pan_transform ⟨0, 0, 100, 80⟩ (by norm_num) (by norm_num)
  exact ⟨⟨by norm_num, by norm_num⟩, h.1.1, h.2.1.1, h.2.1.2.2.1⟩

/-- C9: gallery linkage after `init` with gallery mode enabled, for a
group of three images scanned in order: with looping enabled the interior
bidirectional links hold and the head's `previous` is the tail and
the tail's `next` is the head; with looping disabled the interior links
hold and the head's `previous` and the tail's `next` are null. -/
theorem c9_gallery_linkage :
    (init [some "g", some "g", some "g"] true true).nxt = [some 1, some 2, some 0] ∧
    (init [some "g", some "g", some "g"] true true).prv = [some 2, some 0, some 1] ∧
    (init [some "g", some "g", some "g"] true false).nxt = [some 1, some 2, none] ∧
    (init [some "g", some "g", some "g"] true false).prv = [none, some 0, some 1] := by
  refine ⟨?_, ?_, ?_, ?_⟩ <;> decide

/-! ## Lemmas about the engine machine -/

theorem updBuf_same (bs : Nat → BufferM) (i : Nat) (b : BufferM) : updBuf bs i b i = b := by
  simp [updBuf]

theorem updBuf_ne (bs : Nat → BufferM) (i : Nat) (b : BufferM) {n : Nat} (h : n ≠ i) :
    updBuf bs i b n = bs n := by
  simp [updBuf, h]

theorem cleanupBuffer_bstate (b : BufferM) : (cleanupBuffer b).bstate = b.bstate := by
  unfold cleanupBuffer
  split_ifs <;> rfl

theorem presentStart_frontBuffer (s : EngineState) (r : Nat) :
    (lightboxPresentImageStart s r).frontBuffer = s.frontBuffer := by
  unfold lightboxPresentImageStart
  cases hsc : s.swapChain r with
  | none => rfl
  | some bid =>
      simp only []
      split <;> rfl

theorem presentStart_lstate (s : EngineState) (r : Nat) :
    (lightboxPresentImageStart s r).lstate = s.lstate := by
  unfold lightboxPresentImageStart
  cases hsc : s.swapChain r with
  | none => rfl
  | some bid =>
      simp only []
      split <;> rfl

theorem presentStart_presented (s : EngineState) (r : Nat) :
    (lightboxPresentImageStart s r).presented = some r := by
  unfold lightboxPresentImageStart
  cases hsc : s.swapChain r with
  | none => rfl
  | some bid =>
      simp only []
      split <;> rfl

theorem presentStart_buffers_ne (s : EngineState) (r : Nat) {i : Nat} (h : i ≠ s.nextId) :
    (lightboxPresentImageStart s r).buffers i = s.buffers i := by
  unfold lightboxPresentImageStart
  cases hsc : s.swapChain r with
  | none => exact updBuf_ne _ _ _ h
  | some bid =>
      simp only []
      split
      · exact updBuf_ne _ _ _ h
      · rfl

theorem presentStart_swapChain_ne (s : EngineState) (r : Nat) {r2 : Nat} (h : r2 ≠ r) :
    (lightboxPresentImageStart s r).swapChain r2 = s.swapChain r2 := by
  unfold lightboxPresentImageStart
  cases hsc : s.swapChain r with
  | none => simp [h]
  | some bid =>
      simp only []
      split <;> rfl

theorem findLoad_cons_ne {rr bb : Nat} (l : List (Nat × Nat)) {r : Nat} (h : rr ≠ r) :
    findLoad ((rr, bb) :: l) r = findLoad l r := by
  simp [findLoad, h]

theorem presentStart_findLoad_ne (s : EngineState) (r : Nat) {r2 : Nat} (h : r2 ≠ r) :
    findLoad (lightboxPresentImageStart s r).pendingLoads r2 = findLoad s.pendingLoads r2 := by
  unfold lightboxPresentImageStart
  cases hsc : s.swapChain r with
  | none => exact findLoad_cons_ne _ (Ne.symm h)
  | some bid =>
      simp only []
      split
      · rfl
      · exact findLoad_cons_ne _ (Ne.symm h)

theorem bufferSwap_frontActive (s : EngineState) (bid : Nat) (h : frontBufferActive s) :
    frontBufferActive (bufferSwap s bid) := by
  by_cases hna : (s.buffers bid).bstate = BufferState.Active
  · unfold bufferSwap
    rw [if_pos hna]
    exact h
  · have hne : bid ≠ s.frontBuffer := fun he => hna (he ▸ h)
    unfold frontBufferActive bufferSwap
    rw [if_neg hna]
    simp only [updBuf]
    split_ifs <;> simp_all [updBuf]

/-- The one kind of step that demotes the buffer currently at the front
while leaving it the front buffer: a full-load continuation (lines
750-759) whose captured buffer is the current front buffer resumes when
its reference is no longer the presented image or the session is
`Closing`. -/
def staleFrontDemotion (s : EngineState) : Ev → Bool
  | .loadSettled r =>
      match findLoad s.pendingLoads r with
      | some bid =>
          decide (bid = s.frontBuffer ∧
            ¬(s.presented = some r ∧ s.lstate ≠ LightboxState.Closing))
      | none => false
  | _ => false

/-! ## Claims about the engine machine -/

/-- C3 (counterexample): the claim states the front buffer is `Active` at
every instant.  Reachable violation (all swaps on this trace are
immediate, transition duration 0): open on image 10 and let it load and
swap (its buffer, id 1, becomes the front buffer); after the open
transition, click next to image 11 (buffer 2 starts loading), click
previous back to 10 (a re-decode continuation for buffer 1 is chained,
lines 742-744), click next to 11 again (its buffer is still `Loading`, so
a preview is synthesized).  When buffer 1's decode continuation now
settles, the presented image is 11, so lines 755-757 mark buffer 1 —
still the front buffer — `Inactive` and hidden. -/
theorem c3_front_buffer_counterexample :
    ¬ frontBufferActive
      (run (createLightbox 0)
        [.openStart 10, .loadSettled 10, .openFinish, .presentStart 11,
         .presentStart 10, .presentStart 11, .loadSettled 10]) := by
  decide

/-- C3 (amended): exactly one buffer is the front buffer at any instant
(the engine has a single front-buffer slot); the initial front buffer is
`Active`; and every machine step preserves "the front buffer is `Active`"
except a stale full-load continuation whose captured buffer is the
current front buffer (which demotes it to `Inactive` in place, as the
counterexample trace exhibits) — in particular every buffer swap leaves
the front buffer `Active`. -/
theorem c3_front_buffer_invariant :
    (∀ s : EngineState, ∃! b : Nat, s.frontBuffer = b) ∧
    (∀ d : Nat, frontBufferActive (createLightbox d)) ∧
    (∀ (s : EngineState) (e : Ev), s.frontBuffer < s.nextId →
        frontBufferActive s → staleFrontDemotion s e = false →
        frontBufferActive (step s e)) := by
  have hpres : ∀ (s : EngineState) (r : Nat), s.frontBuffer < s.nextId →
      frontBufferActive s → frontBufferActive (lightboxPresentImageStart s r) := by
    intro s r hwf h
    unfold frontBufferActive at *
    rw [presentStart_frontBuffer, presentStart_buffers_ne s r (Nat.ne_of_lt hwf)]
    exact h
  refine ⟨fun s => ⟨s.frontBuffer, rfl, fun y hy => hy.symm⟩, ?_, ?_⟩
  · intro d
    rfl
  · intro s e hwf h hstale
    cases e with
    | presentStart r => exact hpres s r hwf h
    | openStart r =>
        exact hpres { s with lstate := LightboxState.Opening, presented := some r } r hwf h
    | openFinish => exact h
    | closeStart => exact h
    | closeFinish => exact h
    | loadSettled r =>
        show frontBufferActive (lightboxPresentImageLoadCont s r)
        unfold lightboxPresentImageLoadCont
        cases hf : findLoad s.pendingLoads r with
        | none => exact h
        | some bid =>
            simp only []
            split_ifs with hcond
            · exact bufferSwap_frontActive _ bid h
            · have hbid : bid ≠ s.frontBuffer := by
                intro hb
                simp [staleFrontDemotion, hf, hb, hcond] at hstale
              unfold frontBufferActive at *
              simpa [updBuf, Ne.symm hbid] using h
    | timeoutFired r =>
        show frontBufferActive (lightboxPresentImageTimeout s r)
        unfold lightboxPresentImageTimeout
        cases hf : findLoad s.pendingLoads r with
        | none => exact h
        | some bid =>
            unfold frontBufferActive at *
            simpa [updBuf, Nat.ne_of_lt hwf] using h
    | previewSettled r =>
        show frontBufferActive (lightboxPresentImagePreviewCont s r)
        unfold lightboxPresentImagePreviewCont
        cases hf : findPreview s.pendingPreviews r with
        | none => exact h
        | some tpl =>
            obtain ⟨fb, pb, chk⟩ := tpl
            simp only []
            split_ifs with h1 h2 h3
            · exact bufferSwap_frontActive _ pb h
            · unfold frontBufferActive at *
              by_cases hp : s.frontBuffer = pb <;> simpa [updBuf, hp] using h
            · exact bufferSwap_frontActive _ pb h
            · unfold frontBufferActive at *
              by_cases hp : s.frontBuffer = pb <;> simpa [updBuf, hp] using h
    | hideTimer b =>
        show frontBufferActive (hideTimerFired s b)
        unfold hideTimerFired
        split_ifs with hc
        · unfold frontBufferActive at *
          by_cases hb : s.frontBuffer = b
          · simpa [updBuf, hb, cleanupBuffer_bstate] using h
          · simpa [updBuf, hb] using h
        · exact h

/-- C3 (witness): the preservation part applied to a concrete non-stale
step — the open click on image 5 from the freshly created lightbox. -/
theorem c3_front_buffer_invariant_witness :
    ((createLightbox 0).frontBuffer < (createLightbox 0).nextId ∧
      frontBufferActive (createLightbox 0) ∧
      staleFrontDemotion (createLightbox 0) (Ev.openStart 5) = false) ∧
    frontBufferActive (step (createLightbox 0) (Ev.openStart 5)) :=
  ⟨⟨by decide, by decide, by decide⟩,
    c3_front_buffer_invariant.2.2 (createLightbox 0) (Ev.openStart 5)
      (by decide) (by decide) (by decide)⟩

/-- C1: stale-continuation safety.  For any two image references `a ≠ b`
with `a` not yet in the swap chain, if `present(a)` runs and `present(b)`
runs before `a`'s full load settles, then when `a`'s load continuation
finally runs — the session target now being `b` — it does not exchange
`a`'s buffer to the front (the front buffer is unchanged); instead it
marks `a`'s buffer `Inactive`, clears its classes and sets the `hidden`
attribute, while the buffer stays attached and the swap chain keeps its
entry for `a`. -/
theorem c1_stale_continuation_safety (s : EngineState) (a b : Nat) (hab : a ≠ b)
    (hsc : s.swapChain a = none) :
    (lightboxPresentImageLoadCont
        (lightboxPresentImageStart (lightboxPresentImageStart s a) b) a).frontBuffer
      = s.frontBuffer ∧
    ((lightboxPresentImageLoadCont
        (lightboxPresentImageStart (lightboxPresentImageStart s a) b) a).buffers
          s.nextId).bstate = BufferState.Inactive ∧
    ((lightboxPresentImageLoadCont
        (lightboxPresentImageStart (lightboxPresentImageStart s a) b) a).buffers
          s.nextId).classes = [] ∧
    ((lightboxPresentImageLoadCont
        (lightboxPresentImageStart (lightboxPresentImageStart s a) b) a).buffers
          s.nextId).hiddenAttr = true ∧
    ((lightboxPresentImageLoadCont
        (lightboxPresentImageStart (lightboxPresentImageStart s a) b) a).buffers
          s.nextId).inDom = true ∧
    (lightboxPresentImageLoadCont
        (lightboxPresentImageStart (lightboxPresentImageStart s a) b) a).swapChain a
      = some s.nextId := by
  have h1buf : (lightboxPresentImageStart s a).buffers s.nextId = newLoadingBuffer := by
    simp [lightboxPresentImageStart, hsc, updBuf]
  have h1sc : (lightboxPresentImageStart s a).swapChain a = some s.nextId := by
    simp [lightboxPresentImageStart, hsc]
  have h1fl : findLoad (lightboxPresentImageStart s a).pendingLoads a = some s.nextId := by
    simp [lightboxPresentImageStart, hsc, findLoad]
  have h1next : (lightboxPresentImageStart s a).nextId = s.nextId + 1 := by
    simp [lightboxPresentImageStart, hsc]
  have hne1 : s.nextId ≠ (lightboxPresentImageStart s a).nextId := by
    rw [h1next]
    omega
  have buf2 :
      (lightboxPresentImageStart (lightboxPresentImageStart s a) b).buffers s.nextId
        = newLoadingBuffer :=
    (presentStart_buffers_ne (lightboxPresentImageStart s a) b hne1).trans h1buf
  have pres2 :
      (lightboxPresentImageStart (lightboxPresentImageStart s a) b).presented = some b :=
    presentStart_presented _ b
  have fl2 :
      findLoad (lightboxPresentImageStart (lightboxPresentImageStart s a) b).pendingLoads a
        = some s.nextId :=
    (presentStart_findLoad_ne (lightboxPresentImageStart s a) b hab).trans h1fl
  have sc2 :
      (lightboxPresentImageStart (lightboxPresentImageStart s a) b).swapChain a
        = some s.nextId :=
    (presentStart_swapChain_ne (lightboxPresentImageStart s a) b hab).trans h1sc
  have front2 :
      (lightboxPresentImageStart (lightboxPresentImageStart s a) b).frontBuffer
        = s.frontBuffer :=
    (presentStart_frontBuffer _ b).trans (presentStart_frontBuffer s a)
  unfold lightboxPresentImageLoadCont
  rw [fl2]
  simp only []
  split_ifs with hcond
  · exfalso
    have hp :
        (lightboxPresentImageStart (lightboxPresentImageStart s a) b).presented = some a :=
      hcond.1
    rw [pres2] at hp
    exact hab (Option.some.inj hp).symm
  · refine ⟨front2, ?_, ?_, ?_, ?_, sc2⟩ <;>
      simp [updBuf_same, buf2, newLoadingBuffer, createBuffer]

/-- C1 (witness): the scenario run concretely from the freshly created
lightbox with references 5 and 6. -/
theorem c1_stale_continuation_safety_witness :
    ((5 : Nat) ≠ 6 ∧ (createLightbox 0).swapChain 5 = none) ∧
    ((lightboxPresentImageLoadCont
        (lightboxPresentImageStart (lightboxPresentImageStart (createLightbox 0) 5) 6)
        5).frontBuffer = (createLightbox 0).frontBuffer ∧
      ((lightboxPresentImageLoadCont
          (lightboxPresentImageStart (lightboxPresentImageStart (createLightbox 0) 5) 6)
          5).buffers (createLightbox 0).nextId).bstate = BufferState.Inactive ∧
      ((lightboxPresentImageLoadCont
          (lightboxPresentImageStart (lightboxPresentImageStart (createLightbox 0) 5) 6)
          5).buffers (createLightbox 0).nextId).classes = [] ∧
      ((lightboxPresentImageLoadCont
          (lightboxPresentImageStart (lightboxPresentImageStart (createLightbox 0) 5) 6)
          5).buffers (createLightbox 0).nextId).hiddenAttr = true ∧
      ((lightboxPresentImageLoadCont
          (lightboxPresentImageStart (lightboxPresentImageStart (createLightbox 0) 5) 6)
          5).buffers (createLightbox 0).nextId).inDom = true ∧
      (lightboxPresentImageLoadCont
          (lightboxPresentImageStart (lightboxPresentImageStart (createLightbox 0) 5) 6)
          5).swapChain 5 = some (createLightbox 0).nextId) :=
  ⟨⟨by decide, by decide⟩,
    c1_stale_continuation_safety (createLightbox 0) 5 6 (by decide) (by decide)⟩

/-- C10: `createLightbox` builds its initial front buffer with
`createBuffer(BufferState.Active, true)`, i.e. an `Active` disposable
preview.  Whenever a buffer that is not `Active` is exchanged to the
front while this preview placeholder is the front buffer (and the session
is not yet `Open` — the situation of the first present during opening),
the placeholder is demoted to `Inactive` and its wrapper is detached from
the DOM entirely, not hidden and retained; and in general the cleanup of
an `Inactive` disposable preview detaches it without touching its
`hidden` attribute. -/
theorem c10_initial_front_buffer_disposable :
    (∀ d : Nat,
        ((createLightbox d).buffers (createLightbox d).frontBuffer).isPreview = true ∧
        ((createLightbox d).buffers (createLightbox d).frontBuffer).bstate
          = BufferState.Active) ∧
    (∀ (s : EngineState) (q : Nat),
        (s.buffers s.frontBuffer).isPreview = true →
        (s.buffers s.frontBuffer).bstate = BufferState.Active →
        (s.buffers s.frontBuffer).hiddenAttr = false →
        (s.buffers q).bstate ≠ BufferState.Active →
        s.lstate ≠ LightboxState.Open →
        (bufferSwap s q).frontBuffer = q ∧
        ((bufferSwap s q).buffers s.frontBuffer).bstate = BufferState.Inactive ∧
        ((bufferSwap s q).buffers s.frontBuffer).inDom = false ∧
        ((bufferSwap s q).buffers s.frontBuffer).hiddenAttr = false) ∧
    (∀ bm : BufferM, bm.bstate = BufferState.Inactive → bm.isPreview = true →
        (cleanupBuffer bm).inDom = false ∧ (cleanupBuffer bm).hiddenAttr = bm.hiddenAttr) := by
  refine ⟨fun d => ⟨rfl, rfl⟩, ?_, ?_⟩
  · intro s q hpv hact hhid hq hls
    have hqf : q ≠ s.frontBuffer := fun he => hq (he ▸ hact)
    unfold bufferSwap
    rw [if_neg hq]
    simp only [updBuf]
    split_ifs <;> simp_all [cleanupBuffer, updBuf]
  · intro bm h1 h2
    simp [cleanupBuffer, h1, h2]

/-- C10 (witness): from the freshly created lightbox, swapping a
non-`Active` buffer (id 1, holding the default `Inactive` state) to the
front detaches the placeholder. -/
theorem c10_initial_front_buffer_disposable_witness :
    (((createLightbox 0).buffers (createLightbox 0).frontBuffer).isPreview = true ∧
      ((createLightbox 0).buffers (createLightbox 0).frontBuffer).hiddenAttr = false ∧
      ((createLightbox 0).buffers 1).bstate ≠ BufferState.Active ∧
      (createLightbox 0).lstate ≠ LightboxState.Open) ∧
    ((bufferSwap (createLightbox 0) 1).frontBuffer = 1 ∧
      ((bufferSwap (createLightbox 0) 1).buffers (createLightbox 0).frontBuffer).bstate
        = BufferState.Inactive ∧
      ((bufferSwap (createLightbox 0) 1).buffers (createLightbox 0).frontBuffer).inDom
        = false ∧
      ((bufferSwap (createLightbox 0) 1).buffers (createLightbox 0).frontBuffer).hiddenAttr
        = false) :=
  ⟨⟨by decide, by decide, by decide, by decide⟩,
    c10_initial_front_buffer_disposable.2.1 (createLightbox 0) 1
      (by decide) (by decide) (by decide) (by decide) (by decide)⟩

end LightboxZoom
